import Mathlib

/-!
Shallow embedding of the hybrid function-calling router in `main.py`
(`generate_cactus`, `generate_cloud`, `generate_hybrid` with its inner
complexity scorer and `is_valid` validator), together with theorems
checking the natural-language specification against it.

Numbers that are Python floats in the source (signal ladder values,
weights, elapsed times, confidences) are embedded as exact rationals;
every constant the routing logic compares against is a small decimal
fraction, so the embedding is exact on those.
External collaborators (the cactus runtime, `json.loads`, the Gemini
client) are oracle parameters gathered in environment structures; the
code of the repository itself is translated directly.

String scanning is done on character lists (structurally recursive, so
concrete instances evaluate inside the kernel); the Batteries rational
operations are reopened for kernel evaluation below.
-/

set_option linter.unusedVariables false
set_option allowUnsafeReducibility true

attribute [local semireducible] Rat.add Rat.mul Rat.div Rat.sub Rat.neg Rat.inv Rat.floor

/-- Python/JSON values as they occur in parsed model output: the
argument values the validator inspects. -/
inductive JVal where
  | null : JVal
  | bool (b : Bool) : JVal
  | int (n : Int) : JVal
  | num (q : Rat) : JVal
  | str (s : String) : JVal
  | arr (xs : List JVal) : JVal
  | obj (fields : List (String × JVal)) : JVal

/-- `str()` of the values above, to the extent the validator relies on it
(`int(str(value))`, `float(str(value))`, `str(value).strip()`); containers
are rendered coarsely, no claim depends on their exact rendering. -/
def pyStr : JVal → String
  | .null => "None"
  | .bool true => "True"
  | .bool false => "False"
  | .int n => toString n
  | .num q => toString q
  | .str s => s
  | .arr _ => "[...]"
  | .obj _ => "\x7b...\x7d"

/-- Characters Python's `\w` matches (ASCII range, which is all the code
ever feeds it): letters, digits, underscore. -/
def isWordChar (c : Char) : Bool := c.isAlphanum || c == '_'

/-- `re.sub(r'[^\w\s]', '', s)`: drop every character that is neither a
word character nor whitespace. -/
def stripPunct (s : String) : String :=
  String.mk (s.toList.filter (fun c => isWordChar c || c.isWhitespace))

/-- Python `s.lower()` (ASCII case mapping, which is all the code feeds it). -/
def lowerStr (s : String) : String := String.mk (s.toList.map Char.toLower)

/-- Strip whitespace from both ends of a character list. -/
def trimChars (l : List Char) : List Char :=
  ((l.dropWhile Char.isWhitespace).reverse.dropWhile Char.isWhitespace).reverse

/-- Python `s.strip()`. -/
def pyStrip (s : String) : String := String.mk (trimChars s.toList)

/-- Python `s.split()` helper: accumulate the current word (reversed). -/
def pySplitAux : List Char → List Char → List String
  | acc, [] => if acc.isEmpty then [] else [String.mk acc.reverse]
  | acc, c :: rest =>
    if c.isWhitespace then
      if acc.isEmpty then pySplitAux [] rest
      else String.mk acc.reverse :: pySplitAux [] rest
    else pySplitAux (c :: acc) rest

/-- Python `s.split()`: split on whitespace runs, no empty pieces. -/
def pySplit (s : String) : List String := pySplitAux [] s.toList

/-- Is `p` a prefix of `l`? (building block of the substring test). -/
def listPrefixOf [BEq α] : List α → List α → Bool
  | [], _ => true
  | _ :: _, [] => false
  | a :: as, b :: bs => a == b && listPrefixOf as bs

/-- Python's `needle in hay` on strings, as a scan over character lists. -/
def listInfixOf [BEq α] : List α → List α → Bool
  | needle, [] => listPrefixOf needle []
  | needle, _h :: t => listPrefixOf needle (_h :: t) || listInfixOf needle t

/-- `needle in hay` for strings. -/
def strIn (needle hay : String) : Bool := listInfixOf needle.toList hay.toList

/-- A word boundary holds against this neighbouring character. -/
def boundaryOk : Option Char → Bool
  | none => true
  | some c => !isWordChar c

/-- The word-boundary pattern for word `w` matches at the head of `rest`,
with `prev` the character just before it. -/
def matchWordAt (w : List Char) (prev : Option Char) (rest : List Char) : Bool :=
  boundaryOk prev && listPrefixOf w rest && boundaryOk (rest.drop w.length).head?

/-- Scan for a word-boundary-delimited occurrence of `w`. -/
def searchWordAux (w : List Char) : Option Char → List Char → Bool
  | prev, [] => matchWordAt w prev []
  | prev, c :: rest => matchWordAt w prev (c :: rest) || searchWordAux w (some c) rest

/-- `re.search(rf"\x5cb{w}\x5cb", s)` for a word `w` of word characters. -/
def reSearchWord (w : String) (s : String) : Bool :=
  searchWordAux w.toList none s.toList

/-- The pattern `w1`, one or more whitespace, `w2`, all inside word
boundaries, matches at the head of `l`. -/
def matchTwoAt (w1 w2 : List Char) (prev : Option Char) (l : List Char) : Bool :=
  boundaryOk prev && listPrefixOf w1 l &&
    (match l.drop w1.length with
     | [] => false
     | c :: rest2 =>
        c.isWhitespace &&
          (let rest3 := (c :: rest2).dropWhile Char.isWhitespace
           listPrefixOf w2 rest3 && boundaryOk (rest3.drop w2.length).head?))

/-- Scan for the two-word pattern. -/
def searchTwoAux (w1 w2 : List Char) : Option Char → List Char → Bool
  | prev, [] => matchTwoAt w1 w2 prev []
  | prev, c :: rest => matchTwoAt w1 w2 prev (c :: rest) || searchTwoAux w1 w2 (some c) rest

/-- `re.search(rf"\x5cb{w1}\x5cs+{w2}\x5cb", s)` (used for `only when`, `only if`). -/
def reSearchTwo (w1 w2 : String) (s : String) : Bool :=
  searchTwoAux w1.toList w2.toList none s.toList

/-- Decimal digits to the number they spell. -/
def digitsVal (ds : List Char) : Nat :=
  ds.foldl (fun acc c => acc * 10 + (c.toNat - 48)) 0

/-- Model of Python `int(s)`: optional surrounding whitespace, optional
sign, a nonempty digit run. (CPython additionally allows underscores
between digits; nothing in the repository feeds it those.) -/
def pyIntParse (s : String) : Option Int :=
  let core : List Char → Option Nat := fun ds =>
    if !ds.isEmpty && ds.all Char.isDigit then some (digitsVal ds) else none
  match trimChars s.toList with
  | '+' :: rest => (core rest).map Int.ofNat
  | '-' :: rest => (core rest).map (fun n => -(n : Int))
  | rest => (core rest).map Int.ofNat

/-- Model of Python `float(s)`: optional whitespace and sign, then digits
with an optional decimal point (`7`, `7.`, `7.5`, `.5`). Exponents and
`inf`/`nan` spellings are not modelled; no claim depends on them. -/
def pyFloatParse (s : String) : Option Rat :=
  let core : List Char → Option Rat := fun ds =>
    let intPart := ds.takeWhile Char.isDigit
    let rest := ds.dropWhile Char.isDigit
    match rest with
    | [] => if !intPart.isEmpty then some ((digitsVal intPart : Nat) : Rat) else none
    | '.' :: fracs =>
        if fracs.all Char.isDigit && (!intPart.isEmpty || !fracs.isEmpty) then
          some (((digitsVal intPart : Nat) : Rat) +
            Rat.divInt (digitsVal fracs : Nat) ((10 : Int) ^ fracs.length))
        else none
    | _ => none
  match trimChars s.toList with
  | '+' :: rest => core rest
  | '-' :: rest => (core rest).map Neg.neg
  | rest => core rest

/-- A declared tool parameter (`properties` entry): the validator reads
only its `type`; the description travels along. -/
structure ParamSpec where
  type : String
  description : String := ""
deriving DecidableEq

/-- A tool specification as the Python dicts carry it: name, description,
`parameters.properties` (parameter name, insertion order kept) and
`parameters.required`. -/
structure ToolSpec where
  name : String
  description : String
  properties : List (String × ParamSpec)
  required : List String
deriving DecidableEq

/-- A chat message. -/
structure Message where
  role : String
  content : String
deriving DecidableEq

/-- A function call as produced by an adapter. -/
structure FunctionCall where
  name : String
  arguments : List (String × JVal)

/-! ### The pre-flight complexity scorer (inlined in `generate_hybrid`) -/

/-- Signal 1: message length ladder over `len(user_message.split())`. -/
def sLength (userText : String) : Rat :=
  let word_count := (pySplit userText).length
  if word_count ≤ 8 then 0
  else if word_count ≤ 20 then 2/10
  else if word_count ≤ 40 then 5/10
  else 8/10

/-- The fixed action-verb vocabulary, in source order. -/
def actionVerbs : List String :=
  ["look up", "send", "text", "get", "check",
   "find", "set", "create", "remind", "play",
   "start", "search", "book", "wake", "call"]

/-- One verb's match test: multi-word verbs by plain substring, single
words with word boundaries (the source's `re.search(rf"\x5cb{verb}\x5cb", msg)`). -/
def verbMatches (verb : String) (msg : String) : Bool :=
  if verb.toList.contains ' ' then strIn verb msg else reSearchWord verb msg

/-- Number of matched verbs. The source iterates the vocabulary sorted by
length (descending) and collects matches in a list; only the count is
ever used, and it is independent of the iteration order, so the sort is
not reproduced. -/
def verbCount (msg : String) : Nat :=
  (actionVerbs.filter (fun v => verbMatches v msg)).length

/-- Signal 2: action verb ladder. -/
def sVerbs (msg : String) : Rat :=
  let vc := verbCount msg
  if vc ≤ 1 then 0 else if vc == 2 then 8/10 else 1

/-- Explicit multi-step signal (the first disjunct is redundant, kept as
in the source). -/
def sMulti (msg : String) : Rat :=
  if (strIn " and " msg && decide (verbCount msg > 1)) || decide (verbCount msg > 1)
  then 1 else 0

/-- Signal 3: number of negation/conditional patterns that match. The
source counts matches over the concatenated pattern lists
`[not, never, except, without, no] ++ [if, unless, only when, only if, when]`;
summing per pattern in that order. -/
def negCondHits (msg : String) : Nat :=
  (["not", "never", "except", "without", "no"].filter
      (fun w => reSearchWord w msg)).length
  + (["if", "unless"].filter (fun w => reSearchWord w msg)).length
  + (if reSearchTwo "only" "when" msg then 1 else 0)
  + (if reSearchTwo "only" "if" msg then 1 else 0)
  + (if reSearchWord "when" msg then 1 else 0)

/-- Signal 3 ladder. -/
def sNeg (msg : String) : Rat :=
  let h := negCondHits msg
  if h == 0 then 0 else if h == 1 then 3/10 else if h == 2 then 6/10 else 9/10

/-- Signal 4: tool-count ladder. -/
def sTools (tools : List ToolSpec) : Rat :=
  let tool_count := tools.length
  if tool_count ≤ 2 then 0
  else if tool_count ≤ 5 then 2/10
  else if tool_count ≤ 10 then 5/10
  else 8/10

/-- Jaccard similarity of the lower-cased word sets of two strings
(`0.0` when either set is empty). -/
def jaccard (a b : String) : Rat :=
  let wa := (pySplit (lowerStr a)).toFinset
  let wb := (pySplit (lowerStr b)).toFinset
  if wa ≠ ∅ ∧ wb ≠ ∅ then ((wa ∩ wb).card : Rat) / ((wa ∪ wb).card : Rat) else 0

/-- `f"{name} {description}"` per tool. -/
def toolDescs (tools : List ToolSpec) : List String :=
  tools.map (fun t => t.name ++ " " ++ t.description)

/-- Maximum pairwise `jaccard` over all pairs `i < j`, starting from `0.0`. -/
def maxPairSim : List String → Rat
  | [] => 0
  | d :: rest => max (rest.foldl (fun m e => max m (jaccard d e)) 0) (maxPairSim rest)

/-- Signal 5: tool-similarity ladder. -/
def sSim (tools : List ToolSpec) : Rat :=
  let max_sim := maxPairSim (toolDescs tools)
  if max_sim < 2/10 then 0
  else if max_sim < 4/10 then 3/10
  else if max_sim < 6/10 then 6/10
  else 9/10

/-- The weighted composite pre-flight score. `msg` (the lower-cased user
text) feeds the verb/multi-step/negation signals, the raw text feeds the
length signal, exactly as in the source. -/
def complexityScore (userText : String) (tools : List ToolSpec) : Rat :=
  let msg := lowerStr userText
  sLength userText * (1/10) + sVerbs msg * (2/10) + sMulti msg * (4/10)
  + sNeg msg * (2/10) + sTools tools * (1/10) + sSim tools * (1/10)

/-! ### The adapters -/

/-- The local adapter's result dict (all keys always present: the parse
fallback and the `.get` defaults fill them in). -/
structure LocalResult where
  function_calls : List FunctionCall
  total_time_ms : Rat
  confidence : Rat
  cloud_handoff : Bool

/-- What `json.loads` can yield on repaired local output, restricted to
the shape `generate_cactus` reads out of it (each key optional, read
with a `.get` default). -/
structure ParsedLocal where
  function_calls : Option (List FunctionCall) := none
  total_time_ms : Option Rat := none
  confidence : Option Rat := none
  cloud_handoff : Option Bool := none

/-- `re.sub(r'([:\s\x5b,])0+(\d+)', r'\1\2', s)` on a character list:
after `:`, whitespace, `[` or `,`, a digit run that starts with `0` and
has at least two digits loses its leading zeros (all-zero runs collapse
to a single `0`); scanning resumes after the run. The `fuel` argument
only makes the recursion structural (so that instances evaluate in the
kernel); every recursive call shortens the list, so any `fuel` at least
the list's length — as `patchZeros` passes — never runs out. -/
def patchZerosFuel : Nat → List Char → List Char
  | 0, l => l
  | _ + 1, [] => []
  | fuel + 1, c :: rest =>
    if c == ':' || c == '[' || c == ',' || c.isWhitespace then
      let digits := rest.takeWhile Char.isDigit
      if 2 ≤ digits.length ∧ digits.head? = some '0' then
        let stripped := match digits.dropWhile (· == '0') with
          | [] => ['0']
          | r => r
        c :: (stripped ++ patchZerosFuel fuel (rest.dropWhile Char.isDigit))
      else c :: patchZerosFuel fuel rest
    else c :: patchZerosFuel fuel rest

/-- The leading-zero repair. -/
def patchZeros (l : List Char) : List Char := patchZerosFuel l.length l

/-- `re.sub(r'"true"|"false"|"TRUE"|"FALSE"', lambda m: m.group(0).lower().replace('"',''), s)`:
exactly the all-lowercase and all-uppercase quoted spellings become bare
lowercase literals; every other casing is left alone. Fuel as in
`patchZerosFuel`. -/
def patchBoolsFuel : Nat → List Char → List Char
  | 0, l => l
  | _ + 1, [] => []
  | fuel + 1, c :: rest =>
    if listPrefixOf "\"true\"".toList (c :: rest) then
      "true".toList ++ patchBoolsFuel fuel ((c :: rest).drop 6)
    else if listPrefixOf "\"false\"".toList (c :: rest) then
      "false".toList ++ patchBoolsFuel fuel ((c :: rest).drop 7)
    else if listPrefixOf "\"TRUE\"".toList (c :: rest) then
      "true".toList ++ patchBoolsFuel fuel ((c :: rest).drop 6)
    else if listPrefixOf "\"FALSE\"".toList (c :: rest) then
      "false".toList ++ patchBoolsFuel fuel ((c :: rest).drop 7)
    else c :: patchBoolsFuel fuel rest

/-- The quoted-boolean repair. -/
def patchBools (l : List Char) : List Char := patchBoolsFuel l.length l

/-- The local adapter's output repair: leading-zero integers first, then
quoted booleans, as the two `re.sub` lines order them. -/
def pyRepair (s : String) : String :=
  String.mk (patchBools (patchZeros s.toList))

/-- External calls `generate_cactus` makes: the cactus model run (raw
string output, a function of the conversation, tools and system message)
and `json.loads` on the repaired string (`none` = `JSONDecodeError`). -/
structure CactusEnv where
  cactusComplete : List Message → List ToolSpec → String → String
  jsonLoads : String → Option ParsedLocal

/-- The default system message of `generate_cactus`. -/
def defaultSystemMsg : String := "You are a helpful assistant that can use tools."

/-- `generate_cactus`: run the model, repair the raw string, parse; a
parse failure degrades to the empty result, otherwise the four keys are
read out with `.get` defaults. -/
def generate_cactus (env : CactusEnv) (messages : List Message) (tools : List ToolSpec)
    (system_msg : String := defaultSystemMsg) : LocalResult :=
  let raw_str := env.cactusComplete messages tools system_msg
  let patched_str := pyRepair raw_str
  match env.jsonLoads patched_str with
  | none => { function_calls := [], total_time_ms := 0, confidence := 0, cloud_handoff := false }
  | some raw =>
      { function_calls := raw.function_calls.getD []
        total_time_ms := raw.total_time_ms.getD 0
        confidence := raw.confidence.getD 0
        cloud_handoff := raw.cloud_handoff.getD false }

/-- The cloud adapter's result dict (no confidence key). -/
structure CloudResult where
  function_calls : List FunctionCall
  total_time_ms : Rat

/-- One part of a cloud response candidate: its `function_call` field may
be unset. -/
structure CloudPart where
  function_call : Option FunctionCall

/-- External behaviour of the Gemini client for the one call
`generate_cloud` makes: either an exception (missing credentials,
network failure — nothing in `generate_cloud` catches it) or the
response candidates plus the elapsed wall-clock time. -/
structure CloudEnv where
  response : Except String (List (List CloudPart) × Rat)

/-- `generate_cloud`: no try/except anywhere — a client failure
propagates to the caller; on success the parts with a `function_call`
are collected in order. -/
def generate_cloud (env : CloudEnv) : Except String CloudResult :=
  match env.response with
  | .error e => .error e
  | .ok (candidates, total_time_ms) =>
      .ok { function_calls :=
              candidates.foldl (fun acc parts => acc ++ parts.filterMap (·.function_call)) []
            total_time_ms := total_time_ms }

/-! ### The post-flight validator (inner `is_valid` of `generate_hybrid`) -/

/-- Lookup in a dict built by successive insertion (`{t["name"]: t for t in tools}`,
parsed JSON objects): a later binding for the same key wins. -/
def dictFind (l : List (String × α)) (k : String) : Option α :=
  (l.reverse.find? (fun p => p.1 == k)).map (·.2)

/-- Python `k in d` for such a dict. -/
def dictContains (l : List (String × α)) (k : String) : Bool :=
  l.any (fun p => p.1 == k)

/-- `tools_by_name = {t["name"]: t for t in tools}` lookup. -/
def toolsByName (tools : List ToolSpec) (n : String) : Option ToolSpec :=
  tools.reverse.find? (fun t => t.name == n)

/-- `isinstance(value, int)` — Python booleans are ints. -/
def pyIsIntInstance : JVal → Bool
  | .int _ => true
  | .bool _ => true
  | _ => false

/-- `isinstance(value, (int, float))`. -/
def pyIsNumInstance : JVal → Bool
  | .int _ => true
  | .bool _ => true
  | .num _ => true
  | _ => false

/-- The per-argument body of the validator's type-check loop: `none` means
this argument passes (or its parameter is undeclared), `some r` the
failure reason returned. `msg` is the lower-cased user message the
closure captures. -/
def checkArgType (msg : String) (required : List String)
    (props : List (String × ParamSpec)) (param : String) (value : JVal) : Option String :=
  match dictFind props param with
  | none => none
  | some ps =>
    let expected_type := ps.type
    if expected_type == "integer" && !pyIsIntInstance value then
      match pyIntParse (pyStr value) with
      | some _ => none
      | none => some ("param '" ++ param ++ "' not coercible to int")
    else if expected_type == "number" && !pyIsNumInstance value then
      match pyFloatParse (pyStr value) with
      | some _ => none
      | none => some ("param '" ++ param ++ "' not coercible to number")
    else if expected_type == "string" then
      if pyStrip (pyStr value) == "" && required.contains param then
        some ("required string param '" ++ param ++ "' is empty")
      else if pyStrip (pyStr value) != "" then
        let val_clean := pyStrip (stripPunct (lowerStr (pyStr value)))
        let msg_clean := pyStrip (stripPunct msg)
        if val_clean != "" && !strIn val_clean msg_clean then
          let words := pySplit val_clean
          let match_count := (words.filter (fun w => strIn w msg_clean)).length
          if match_count == 0 then
            some ("hallucinated string not in prompt: " ++ pyStr value)
          else none
        else none
      else none
    else none

/-- The argument loop (`for param, value in args.items()` in insertion
order), short-circuiting on the first failure. -/
def checkArgs (msg : String) (required : List String)
    (props : List (String × ParamSpec)) : List (String × JVal) → Option String
  | [] => none
  | (param, value) :: rest =>
    match checkArgType msg required props param value with
    | some r => some r
    | none => checkArgs msg required props rest

/-- One call's checks, in source order: known name, all required
parameters present (first missing one reported), then argument types. -/
def checkCall (tools : List ToolSpec) (msg : String) (call : FunctionCall) : Option String :=
  match toolsByName tools call.name with
  | none => some ("hallucinated tool name: " ++ call.name)
  | some t =>
    match t.required.find? (fun param => !dictContains call.arguments param) with
    | some param => some ("missing required param '" ++ param ++ "' in " ++ call.name)
    | none => checkArgs msg t.required t.properties call.arguments

/-- The call loop, short-circuiting on the first failing call. -/
def checkCalls (tools : List ToolSpec) (msg : String) : List FunctionCall → Option String
  | [] => none
  | c :: rest =>
    match checkCall tools msg c with
    | some r => some r
    | none => checkCalls tools msg rest

/-- `is_valid(result)`: the `(valid, reason)` pair. -/
def is_valid (tools : List ToolSpec) (msg : String) (result : LocalResult) : Bool × String :=
  if result.function_calls.isEmpty then (false, "no function calls returned")
  else
    match checkCalls tools msg result.function_calls with
    | some reason => (false, reason)
    | none => (true, "ok")

/-! ### The routing controller `generate_hybrid` -/

/-- The final result dict handed to the caller: `confidence` and
`cloud_handoff` keys exist only on local paths, `local_confidence` only
on the cloud fallback path. -/
structure RoutingResult where
  function_calls : List FunctionCall
  total_time_ms : Rat
  confidence : Option Rat := none
  cloud_handoff : Option Bool := none
  source : String
  local_confidence : Option Rat := none

/-- The two adapters' external environments. -/
structure HybridEnv where
  cactus : CactusEnv
  cloud : CloudEnv

/-- The stronger retry system prompt. -/
def retrySystemMsg : String :=
  "You MUST call one of the provided tools. " ++
  "Do not write any text. Only call the most relevant tool."

/-- The last `user`-role message's content, `""` when there is none. -/
def lastUserMessage (messages : List Message) : String :=
  ((messages.reverse.find? (fun m => m.role == "user")).map Message.content).getD ""

/-- `f"{score:.2f}"` for the scores this program produces: every
composite score is a nonnegative multiple of 1/100, on which two-decimal
formatting is exact (float rounding of other values is not modelled). -/
def formatTwoDecimals (q : Rat) : String :=
  let c := (q * 100).floor.toNat
  toString (c / 100) ++ "." ++ toString (c / 10 % 10) ++ toString (c % 10)

/-- `generate_hybrid`: pre-flight score and threshold check, local
attempt, local retry, cloud fallback. A cloud-client failure propagates
(`Except.error`), as in the source, which has no handler for it. -/
def generate_hybrid (env : HybridEnv) (messages : List Message) (tools : List ToolSpec)
    (confidence_threshold : Rat := 99/100) : Except String RoutingResult :=
  let user_message := lastUserMessage messages
  let msg := lowerStr user_message
  let score := complexityScore user_message tools
  if score ≥ 40/100 then
    match generate_cloud env.cloud with
    | .error e => .error e
    | .ok cloud =>
        .ok { function_calls := cloud.function_calls
              total_time_ms := cloud.total_time_ms
              source := "cloud (preflight score=" ++ formatTwoDecimals score ++ ")" }
  else
    let localRes := generate_cactus env.cactus messages tools
    let available_names := tools.map ToolSpec.name
    if (is_valid tools msg localRes).1 then
      .ok { function_calls :=
              localRes.function_calls.filter (fun c => available_names.contains c.name)
            total_time_ms := localRes.total_time_ms
            confidence := some localRes.confidence
            cloud_handoff := some localRes.cloud_handoff
            source := "on-device" }
    else
      let retry := generate_cactus env.cactus messages tools retrySystemMsg
      if (is_valid tools msg retry).1 then
        .ok { function_calls :=
                retry.function_calls.filter (fun c => available_names.contains c.name)
              total_time_ms := retry.total_time_ms + localRes.total_time_ms
              confidence := some retry.confidence
              cloud_handoff := some retry.cloud_handoff
              source := "on-device (retry)" }
      else
        match generate_cloud env.cloud with
        | .error e => .error e
        | .ok cloud =>
            .ok { function_calls := cloud.function_calls
                  total_time_ms := cloud.total_time_ms
                    + (localRes.total_time_ms + retry.total_time_ms)
                  source := "cloud (postflight fallback)"
                  local_confidence := some localRes.confidence }

/-! ### Concrete scenario data (used by witnesses and counterexamples) -/

/-- The example tool of `main.py`'s `__main__` block. -/
def weatherTool : ToolSpec :=
  { name := "get_weather", description := "Get current weather for a location",
    properties := [("location", { type := "string", description := "City name" })],
    required := ["location"] }

/-- A second tool, lexically unrelated to `weatherTool`. -/
def messageTool : ToolSpec :=
  { name := "send_message", description := "Deliver an SMS note to a chosen contact",
    properties := [("contact", { type := "string" }), ("note", { type := "string" })],
    required := ["contact"] }

/-- The example conversation of `main.py`'s `__main__` block (scores 0.00). -/
def weatherMsgs : List Message :=
  [{ role := "user", content := "What is the weather in San Francisco?" }]

/-- A multi-step request: two action verbs and ` and ` give a preflight
score of 0.58 ≥ 0.40. -/
def multiStepMsgs : List Message :=
  [{ role := "user", content := "Text Dave saying I'll be late and check the weather." }]

/-- A plausible weather call, grounded in `weatherMsgs`. -/
def weatherCall : FunctionCall :=
  { name := "get_weather", arguments := [("location", .str "San Francisco")] }

/-- A cactus environment whose output never parses (`json.loads` raises). -/
def cactusFailEnv : CactusEnv :=
  { cactusComplete := fun _ _ _ => "I cannot call a tool here.", jsonLoads := fun _ => none }

/-- A cactus environment that parses into a confident weather call. -/
def cactusGoodEnv : CactusEnv :=
  { cactusComplete := fun _ _ _ => "ok"
    jsonLoads := fun _ => some { function_calls := some [weatherCall]
                                 total_time_ms := some 120
                                 confidence := some (85/100)
                                 cloud_handoff := some false } }

/-- A cloud environment that answers with the weather call after 50 ms. -/
def cloudOkEnv : CloudEnv :=
  { response := .ok ([[{ function_call := some weatherCall }]], 50) }

/-- A cloud environment that answers with a tool name outside any catalog
used here. -/
def cloudBogusEnv : CloudEnv :=
  { response := .ok ([[{ function_call := some { name := "bogus_tool", arguments := [] } }]], 20) }

/-- A cloud environment in which the client raises (missing credentials). -/
def cloudErrEnv : CloudEnv :=
  { response := .error "missing credentials" }

/-- A 41-word request with three action verbs, ` and `, and three
negation/conditional hits: maximizes the length, verb, multi-step and
negation signals. -/
def maxText : String :=
  "please send the report and check the mail and find the file if it is not ready and never stop waiting okay okay okay okay okay okay okay okay okay okay okay okay okay okay okay okay okay okay okay okay"

/-- A parameterless filler tool. -/
def fillerTool (n d : String) : ToolSpec :=
  { name := n, description := d, properties := [], required := [] }

/-- Eleven tools, two of them near-duplicates (pairwise Jaccard 0.6):
maximizes the tool-count and tool-similarity signals. -/
def maxTools : List ToolSpec :=
  [ fillerTool "set_timer" "set a timer", fillerTool "set_timer2" "set a timer",
    fillerTool "t3" "d3", fillerTool "t4" "d4", fillerTool "t5" "d5", fillerTool "t6" "d6",
    fillerTool "t7" "d7", fillerTool "t8" "d8", fillerTool "t9" "d9", fillerTool "t10" "d10",
    fillerTool "t11" "d11" ]

/-! ### Sanity checks of the embedded helpers on concrete inputs -/

example : pyIntParse "7" = some 7 := by decide
example : pyIntParse " -42 " = some (-42) := by decide
example : pyIntParse "seven" = none := by decide
example : pyFloatParse "3.5" = some (7/2) := by decide
example : strIn "bob" "send hi to bob now" = true := by decide
example : reSearchWord "no" "note the note" = false := by decide
example : reSearchWord "no" "no way" = true := by decide
example : reSearchTwo "only" "if" "fire only  if ready" = true := by decide
example : reSearchTwo "only" "if" "only nif" = false := by decide
example : pySplit "  a b  c " = ["a", "b", "c"] := by decide
example : stripPunct "I'll be late." = "Ill be late" := by decide
example : lowerStr "AbC" = "abc" := by decide
example : complexityScore (lastUserMessage weatherMsgs) [weatherTool] = 0 := by decide
example : complexityScore (lastUserMessage multiStepMsgs) [weatherTool, messageTool] = 58/100 := by
  decide
example : formatTwoDecimals (58/100) = "0.58" := by decide

/-! ### Helper lemmas on the validator -/

/-- `checkCalls` succeeds exactly when every call passes `checkCall`. -/
theorem checkCalls_eq_none_iff (tools : List ToolSpec) (msg : String) :
    ∀ calls : List FunctionCall,
      checkCalls tools msg calls = none ↔ ∀ c ∈ calls, checkCall tools msg c = none
  | [] => by simp [checkCalls]
  | c :: rest => by
      rw [checkCalls]
      cases h : checkCall tools msg c with
      | none => simp [h, checkCalls_eq_none_iff tools msg rest]
      | some r => simp [h]

/-- The `(valid, …)` flag of `is_valid` is true exactly when there is at
least one call and each passes all per-call rules. -/
theorem is_valid_fst_true_iff (tools : List ToolSpec) (msg : String) (result : LocalResult) :
    (is_valid tools msg result).1 = true ↔
      result.function_calls ≠ [] ∧
        ∀ c ∈ result.function_calls, checkCall tools msg c = none := by
  unfold is_valid
  cases hc : result.function_calls with
  | nil => simp
  | cons c cs =>
      cases h2 : checkCalls tools msg (c :: cs) with
      | none =>
          rw [checkCalls_eq_none_iff] at h2
          simp [h2]
          exact fun a ha => h2 a (List.mem_cons_of_mem _ ha)
      | some r =>
          simp only [List.isEmpty_cons, Bool.false_eq_true, if_false, h2, false_iff,
            not_and, ne_eq]
          intro _ hall
          rw [← checkCalls_eq_none_iff tools msg (c :: cs)] at hall
          simp [hall] at h2

/-! ### Helper lemmas on the routing paths -/

/-- CLOUD_DIRECT: score at threshold or above routes straight to the
cloud adapter. -/
theorem hybrid_preflight_eq (env : HybridEnv) (messages : List Message) (tools : List ToolSpec)
    (h : 40/100 ≤ complexityScore (lastUserMessage messages) tools) :
    generate_hybrid env messages tools =
      (generate_cloud env.cloud).map (fun cloud =>
        { function_calls := cloud.function_calls
          total_time_ms := cloud.total_time_ms
          source := "cloud (preflight score=" ++
            formatTwoDecimals (complexityScore (lastUserMessage messages) tools) ++ ")" }) := by
  unfold generate_hybrid
  simp only [ge_iff_le]
  rw [if_pos h]
  cases generate_cloud env.cloud <;> rfl

/-- SUCCESS_LOCAL: below threshold and first local attempt valid. -/
theorem hybrid_local_eq (env : HybridEnv) (messages : List Message) (tools : List ToolSpec)
    (h : ¬ 40/100 ≤ complexityScore (lastUserMessage messages) tools)
    (hv : (is_valid tools (lowerStr (lastUserMessage messages))
            (generate_cactus env.cactus messages tools)).1 = true) :
    generate_hybrid env messages tools =
      .ok { function_calls :=
              (generate_cactus env.cactus messages tools).function_calls.filter
                (fun c => (tools.map ToolSpec.name).contains c.name)
            total_time_ms := (generate_cactus env.cactus messages tools).total_time_ms
            confidence := some (generate_cactus env.cactus messages tools).confidence
            cloud_handoff := some (generate_cactus env.cactus messages tools).cloud_handoff
            source := "on-device" } := by
  unfold generate_hybrid
  simp only [ge_iff_le]
  rw [if_neg h, if_pos hv]

/-- SUCCESS_LOCAL_RETRY: below threshold, first attempt invalid, retry
valid; time is retry plus first attempt. -/
theorem hybrid_retry_eq (env : HybridEnv) (messages : List Message) (tools : List ToolSpec)
    (h : ¬ 40/100 ≤ complexityScore (lastUserMessage messages) tools)
    (hv : (is_valid tools (lowerStr (lastUserMessage messages))
            (generate_cactus env.cactus messages tools)).1 = false)
    (hr : (is_valid tools (lowerStr (lastUserMessage messages))
            (generate_cactus env.cactus messages tools retrySystemMsg)).1 = true) :
    generate_hybrid env messages tools =
      .ok { function_calls :=
              (generate_cactus env.cactus messages tools retrySystemMsg).function_calls.filter
                (fun c => (tools.map ToolSpec.name).contains c.name)
            total_time_ms :=
              (generate_cactus env.cactus messages tools retrySystemMsg).total_time_ms
                + (generate_cactus env.cactus messages tools).total_time_ms
            confidence := some (generate_cactus env.cactus messages tools retrySystemMsg).confidence
            cloud_handoff :=
              some (generate_cactus env.cactus messages tools retrySystemMsg).cloud_handoff
            source := "on-device (retry)" } := by
  unfold generate_hybrid
  simp only [ge_iff_le]
  rw [if_neg h, if_neg (by simp [hv]), if_pos hr]

/-- CLOUD_FALLBACK: below threshold, both local attempts invalid. -/
theorem hybrid_fallback_eq (env : HybridEnv) (messages : List Message) (tools : List ToolSpec)
    (h : ¬ 40/100 ≤ complexityScore (lastUserMessage messages) tools)
    (hv : (is_valid tools (lowerStr (lastUserMessage messages))
            (generate_cactus env.cactus messages tools)).1 = false)
    (hr : (is_valid tools (lowerStr (lastUserMessage messages))
            (generate_cactus env.cactus messages tools retrySystemMsg)).1 = false) :
    generate_hybrid env messages tools =
      (generate_cloud env.cloud).map (fun cloud =>
        { function_calls := cloud.function_calls
          total_time_ms := cloud.total_time_ms
            + ((generate_cactus env.cactus messages tools).total_time_ms
               + (generate_cactus env.cactus messages tools retrySystemMsg).total_time_ms)
          source := "cloud (postflight fallback)"
          local_confidence := some (generate_cactus env.cactus messages tools).confidence }) := by
  unfold generate_hybrid
  simp only [ge_iff_le]
  rw [if_neg h, if_neg (by simp [hv]), if_neg (by simp [hr])]
  cases generate_cloud env.cloud <;> rfl

/-! ### Claim theorems -/

/-- C1: for every request whose preflight complexity score is ≥ 0.40, the
local adapter (`generate_cactus`) is never invoked — the routing result
is independent of the local environment — and the router returns the
cloud adapter's result with `source = "cloud (preflight score=X.XX)"`,
the score formatted to two decimals. -/
theorem preflight_bypasses_local (cacA cacB : CactusEnv) (cl : CloudEnv)
    (messages : List Message) (tools : List ToolSpec)
    (h : complexityScore (lastUserMessage messages) tools ≥ 40/100) :
    generate_hybrid ⟨cacA, cl⟩ messages tools = generate_hybrid ⟨cacB, cl⟩ messages tools
    ∧ generate_hybrid ⟨cacA, cl⟩ messages tools =
        (generate_cloud cl).map (fun cloud =>
          { function_calls := cloud.function_calls
            total_time_ms := cloud.total_time_ms
            source := "cloud (preflight score=" ++
              formatTwoDecimals (complexityScore (lastUserMessage messages) tools) ++ ")" }) := by
  refine ⟨?_, hybrid_preflight_eq ⟨cacA, cl⟩ messages tools h⟩
  rw [hybrid_preflight_eq ⟨cacA, cl⟩ messages tools h,
    hybrid_preflight_eq ⟨cacB, cl⟩ messages tools h]

set_option maxRecDepth 8000 in
/-- C1 witness: the multi-step request scores 0.58 ≥ 0.40; two local
environments that would behave very differently yield the same routing
result, the tagged cloud answer. -/
theorem preflight_bypasses_local_witness :
    complexityScore (lastUserMessage multiStepMsgs) [weatherTool, messageTool] ≥ 40/100
    ∧ (generate_hybrid ⟨cactusFailEnv, cloudOkEnv⟩ multiStepMsgs [weatherTool, messageTool]
         = generate_hybrid ⟨cactusGoodEnv, cloudOkEnv⟩ multiStepMsgs [weatherTool, messageTool]
       ∧ generate_hybrid ⟨cactusFailEnv, cloudOkEnv⟩ multiStepMsgs [weatherTool, messageTool]
         = (generate_cloud cloudOkEnv).map (fun cloud =>
             { function_calls := cloud.function_calls
               total_time_ms := cloud.total_time_ms
               source := "cloud (preflight score=" ++
                 formatTwoDecimals (complexityScore (lastUserMessage multiStepMsgs)
                   [weatherTool, messageTool]) ++ ")" })) :=
  ⟨by decide, preflight_bypasses_local cactusFailEnv cactusGoodEnv cloudOkEnv
    multiStepMsgs [weatherTool, messageTool] (by decide)⟩

/-- Shared: a parse failure after repair yields the degraded empty result
(empty `function_calls`, zero time, zero confidence). -/
theorem generate_cactus_parse_failure (env : CactusEnv) (messages : List Message)
    (tools : List ToolSpec) (sys : String)
    (h : env.jsonLoads (pyRepair (env.cactusComplete messages tools sys)) = none) :
    generate_cactus env messages tools sys =
      { function_calls := [], total_time_ms := 0, confidence := 0, cloud_handoff := false } := by
  simp only [generate_cactus, h]

set_option maxRecDepth 8000 in
/-- C2 counterexample: an adapter failure is not converted into a
degraded empty result — with credentials missing the cloud client raises
inside `generate_cloud`, which has no handler, and the router propagates
the exception on a cloud path instead of reaching a terminal
`RoutingResult`. -/
theorem adapters_never_raise_cex :
    generate_cloud cloudErrEnv = .error "missing credentials"
    ∧ generate_hybrid ⟨cactusGoodEnv, cloudErrEnv⟩ multiStepMsgs [weatherTool, messageTool]
        = .error "missing credentials" :=
  ⟨rfl, rfl⟩

/-- C2 (corrected): only the local adapter has the degraded-result
contract — a `json.loads` failure after repair yields the empty result
with confidence 0 — while the cloud adapter catches nothing: a client
failure (missing credentials, network) propagates to its caller. -/
theorem adapter_failure_contract (env : CactusEnv) (messages : List Message)
    (tools : List ToolSpec) (sys : String) (e : String)
    (h : env.jsonLoads (pyRepair (env.cactusComplete messages tools sys)) = none) :
    generate_cactus env messages tools sys =
      { function_calls := [], total_time_ms := 0, confidence := 0, cloud_handoff := false }
    ∧ generate_cloud { response := .error e } = .error e :=
  ⟨generate_cactus_parse_failure env messages tools sys h, rfl⟩

/-- C2 witness: the failing cactus environment degrades to the empty
result; an erroring cloud environment propagates. -/
theorem adapter_failure_contract_witness :
    cactusFailEnv.jsonLoads
        (pyRepair (cactusFailEnv.cactusComplete weatherMsgs [weatherTool] defaultSystemMsg)) = none
    ∧ (generate_cactus cactusFailEnv weatherMsgs [weatherTool] defaultSystemMsg =
         { function_calls := [], total_time_ms := 0, confidence := 0, cloud_handoff := false }
       ∧ generate_cloud { response := .error "network unreachable" } = .error "network unreachable") :=
  ⟨rfl, adapter_failure_contract cactusFailEnv weatherMsgs [weatherTool] defaultSystemMsg
    "network unreachable" rfl⟩

/-! ### Signal ladder ranges -/

theorem sLength_range (t : String) : 0 ≤ sLength t ∧ sLength t ≤ 8/10 := by
  simp only [sLength]; split_ifs <;> norm_num

theorem sVerbs_range (msg : String) : 0 ≤ sVerbs msg ∧ sVerbs msg ≤ 1 := by
  simp only [sVerbs]; split_ifs <;> norm_num

theorem sMulti_range (msg : String) : 0 ≤ sMulti msg ∧ sMulti msg ≤ 1 := by
  simp only [sMulti]; split_ifs <;> norm_num

theorem sNeg_range (msg : String) : 0 ≤ sNeg msg ∧ sNeg msg ≤ 9/10 := by
  simp only [sNeg]; split_ifs <;> norm_num

theorem sTools_range (tools : List ToolSpec) : 0 ≤ sTools tools ∧ sTools tools ≤ 8/10 := by
  simp only [sTools]; split_ifs <;> norm_num

theorem sSim_range (tools : List ToolSpec) : 0 ≤ sSim tools ∧ sSim tools ≤ 9/10 := by
  simp only [sSim]; split_ifs <;> norm_num

/-- C4 (corrected): the composite score is nonnegative, but its true
upper bound is 1.03, not 1 — the six weights sum to 1.1 and the maximal
ladder values give 0.08 + 0.20 + 0.40 + 0.18 + 0.08 + 0.09 = 1.03. -/
theorem complexity_score_range (userText : String) (tools : List ToolSpec) :
    0 ≤ complexityScore userText tools ∧ complexityScore userText tools ≤ 103/100 := by
  obtain ⟨l0, l1⟩ := sLength_range userText
  obtain ⟨v0, v1⟩ := sVerbs_range (lowerStr userText)
  obtain ⟨m0, m1⟩ := sMulti_range (lowerStr userText)
  obtain ⟨n0, n1⟩ := sNeg_range (lowerStr userText)
  obtain ⟨t0, t1⟩ := sTools_range tools
  obtain ⟨s0, s1⟩ := sSim_range tools
  simp only [complexityScore]
  constructor <;> linarith

set_option maxRecDepth 8000 in
/-- C4 counterexample: a 41-word, three-verb, ` and `-joined request with
three negation/conditional hits, over eleven tools two of which are
near-duplicates, scores exactly 1.03 — outside [0,1]. -/
theorem complexity_score_above_one_cex :
    complexityScore maxText maxTools = 103/100 ∧ ¬ complexityScore maxText maxTools ≤ 1 := by
  have h : complexityScore maxText maxTools = 103/100 := by decide
  exact ⟨h, by rw [h]; norm_num⟩

set_option maxRecDepth 8000 in
/-- C3 counterexample: on the CLOUD_DIRECT path the cloud result is
returned without filtering, so a call whose name is in no catalog
reaches the terminal result. -/
theorem terminal_filtering_cex :
    (generate_hybrid ⟨cactusGoodEnv, cloudBogusEnv⟩ multiStepMsgs [weatherTool, messageTool]).map
        (fun r => r.function_calls) = .ok [{ name := "bogus_tool", arguments := [] }]
    ∧ ([weatherTool, messageTool].map ToolSpec.name).contains "bogus_tool" = false :=
  ⟨rfl, by decide⟩

/-- C3 (corrected): the SUCCESS_LOCAL and SUCCESS_LOCAL_RETRY terminal
states filter `function_calls` to catalog names before returning, but
the CLOUD_DIRECT and CLOUD_FALLBACK terminal states return the cloud
adapter's calls unfiltered. -/
theorem terminal_filtering_by_path (env : HybridEnv) (messages : List Message)
    (tools : List ToolSpec) :
    (¬ 40/100 ≤ complexityScore (lastUserMessage messages) tools →
      (is_valid tools (lowerStr (lastUserMessage messages))
          (generate_cactus env.cactus messages tools)).1 = true →
      ∀ r, generate_hybrid env messages tools = .ok r →
        ∀ c ∈ r.function_calls, c.name ∈ tools.map ToolSpec.name)
    ∧ (¬ 40/100 ≤ complexityScore (lastUserMessage messages) tools →
      (is_valid tools (lowerStr (lastUserMessage messages))
          (generate_cactus env.cactus messages tools)).1 = false →
      (is_valid tools (lowerStr (lastUserMessage messages))
          (generate_cactus env.cactus messages tools retrySystemMsg)).1 = true →
      ∀ r, generate_hybrid env messages tools = .ok r →
        ∀ c ∈ r.function_calls, c.name ∈ tools.map ToolSpec.name)
    ∧ (40/100 ≤ complexityScore (lastUserMessage messages) tools →
      ∀ r, generate_hybrid env messages tools = .ok r →
        ∃ cres, generate_cloud env.cloud = .ok cres ∧ r.function_calls = cres.function_calls)
    ∧ (¬ 40/100 ≤ complexityScore (lastUserMessage messages) tools →
      (is_valid tools (lowerStr (lastUserMessage messages))
          (generate_cactus env.cactus messages tools)).1 = false →
      (is_valid tools (lowerStr (lastUserMessage messages))
          (generate_cactus env.cactus messages tools retrySystemMsg)).1 = false →
      ∀ r, generate_hybrid env messages tools = .ok r →
        ∃ cres, generate_cloud env.cloud = .ok cres ∧ r.function_calls = cres.function_calls) := by
  refine ⟨?_, ?_, ?_, ?_⟩
  · intro h hv r hr
    rw [hybrid_local_eq env messages tools h hv] at hr
    cases hr
    intro c hc
    have := List.mem_filter.mp hc
    simpa using List.mem_of_elem_eq_true this.2
  · intro h hv hrv r hr
    rw [hybrid_retry_eq env messages tools h hv hrv] at hr
    cases hr
    intro c hc
    have := List.mem_filter.mp hc
    simpa using List.mem_of_elem_eq_true this.2
  · intro h r hr
    rw [hybrid_preflight_eq env messages tools h] at hr
    cases hcl : generate_cloud env.cloud with
    | error e => rw [hcl] at hr; exact absurd hr (by simp [Except.map])
    | ok cres =>
        rw [hcl] at hr
        simp only [Except.map, Except.ok.injEq] at hr
        exact ⟨cres, rfl, by rw [← hr]⟩
  · intro h hv hrv r hr
    rw [hybrid_fallback_eq env messages tools h hv hrv] at hr
    cases hcl : generate_cloud env.cloud with
    | error e => rw [hcl] at hr; exact absurd hr (by simp [Except.map])
    | ok cres =>
        rw [hcl] at hr
        simp only [Except.map, Except.ok.injEq] at hr
        exact ⟨cres, rfl, by rw [← hr]⟩

/-- C3 witness: a valid local result on the SUCCESS_LOCAL path; every
returned call names a catalog tool. -/
theorem terminal_filtering_by_path_witness :
    (¬ 40/100 ≤ complexityScore (lastUserMessage weatherMsgs) [weatherTool])
    ∧ (is_valid [weatherTool] (lowerStr (lastUserMessage weatherMsgs))
         (generate_cactus cactusGoodEnv weatherMsgs [weatherTool])).1 = true
    ∧ ∀ c ∈ [weatherCall], (c : FunctionCall).name ∈ [weatherTool].map ToolSpec.name :=
  ⟨by decide, by decide,
   (terminal_filtering_by_path ⟨cactusGoodEnv, cloudOkEnv⟩ weatherMsgs [weatherTool]).1
     (by decide) (by decide)
     { function_calls := [weatherCall], total_time_ms := 120, confidence := some (85/100)
       cloud_handoff := some false, source := "on-device" } rfl⟩

/-- C7: when both local attempts fail validation the router returns the
cloud adapter's result tagged `source = "cloud (postflight fallback)"`,
carrying the first local attempt's confidence as `local_confidence` and
the sum of both local attempts' and the cloud call's elapsed times. -/
theorem postflight_fallback_result (env : HybridEnv) (messages : List Message)
    (tools : List ToolSpec)
    (h : ¬ 40/100 ≤ complexityScore (lastUserMessage messages) tools)
    (hv : (is_valid tools (lowerStr (lastUserMessage messages))
            (generate_cactus env.cactus messages tools)).1 = false)
    (hr : (is_valid tools (lowerStr (lastUserMessage messages))
            (generate_cactus env.cactus messages tools retrySystemMsg)).1 = false) :
    generate_hybrid env messages tools =
      (generate_cloud env.cloud).map (fun cloud =>
        { function_calls := cloud.function_calls
          total_time_ms := cloud.total_time_ms
            + ((generate_cactus env.cactus messages tools).total_time_ms
               + (generate_cactus env.cactus messages tools retrySystemMsg).total_time_ms)
          source := "cloud (postflight fallback)"
          local_confidence := some (generate_cactus env.cactus messages tools).confidence }) :=
  hybrid_fallback_eq env messages tools h hv hr

/-- C7 witness: both local attempts degrade (unparseable output) and
fail validation; the cloud result is returned with the fallback tag,
`local_confidence = 0` and the summed time. -/
theorem postflight_fallback_result_witness :
    (¬ 40/100 ≤ complexityScore (lastUserMessage weatherMsgs) [weatherTool])
    ∧ (is_valid [weatherTool] (lowerStr (lastUserMessage weatherMsgs))
         (generate_cactus cactusFailEnv weatherMsgs [weatherTool])).1 = false
    ∧ (is_valid [weatherTool] (lowerStr (lastUserMessage weatherMsgs))
         (generate_cactus cactusFailEnv weatherMsgs [weatherTool] retrySystemMsg)).1 = false
    ∧ generate_hybrid ⟨cactusFailEnv, cloudOkEnv⟩ weatherMsgs [weatherTool] =
        (generate_cloud cloudOkEnv).map (fun cloud =>
          { function_calls := cloud.function_calls
            total_time_ms := cloud.total_time_ms
              + ((generate_cactus cactusFailEnv weatherMsgs [weatherTool]).total_time_ms
                 + (generate_cactus cactusFailEnv weatherMsgs [weatherTool]
                     retrySystemMsg).total_time_ms)
            source := "cloud (postflight fallback)"
            local_confidence :=
              some (generate_cactus cactusFailEnv weatherMsgs [weatherTool]).confidence }) :=
  ⟨by decide, by decide, by decide,
   postflight_fallback_result ⟨cactusFailEnv, cloudOkEnv⟩ weatherMsgs [weatherTool]
     (by decide) (by decide) (by decide)⟩

/-- C6 counterexample: the boolean repair matches only the all-lowercase
and all-uppercase quoted spellings; the mixed-case `"True"` stays a
quoted string instead of becoming a JSON literal. -/
theorem mixed_case_bool_not_repaired_cex :
    pyRepair "\"flag\": \"True\"" = "\"flag\": \"True\""
    ∧ pyRepair "\"flag\": \"True\"" ≠ "\"flag\": true" :=
  ⟨by decide, by decide⟩

/-- C6 (corrected): before parsing, the local adapter strips spurious
leading zeros from integers and rewrites all-lowercase (`"true"`/`"false"`)
and all-uppercase (`"TRUE"`/`"FALSE"`) quoted booleans to bare lowercase
literals — mixed casings are not handled — and a parse failure after the
repair yields the degraded result with empty `function_calls`,
`total_time_ms` 0 and `confidence` 0 instead of propagating. -/
theorem local_repair_and_degrade (env : CactusEnv) (messages : List Message)
    (tools : List ToolSpec) (sys : String)
    (h : env.jsonLoads (pyRepair (env.cactusComplete messages tools sys)) = none) :
    pyRepair "\"count\": 007" = "\"count\": 7"
    ∧ pyRepair "[001, 2]" = "[1, 2]"
    ∧ pyRepair "\"flag\": \"true\", \"on\": \"FALSE\"" = "\"flag\": true, \"on\": false"
    ∧ generate_cactus env messages tools sys =
        { function_calls := [], total_time_ms := 0, confidence := 0, cloud_handoff := false } :=
  ⟨by decide, by decide, by decide, generate_cactus_parse_failure env messages tools sys h⟩

/-- C6 witness: the failing environment's raw output parses to nothing
even after repair, and the degraded result comes back. -/
theorem local_repair_and_degrade_witness :
    cactusFailEnv.jsonLoads
        (pyRepair (cactusFailEnv.cactusComplete weatherMsgs [weatherTool] retrySystemMsg)) = none
    ∧ (pyRepair "\"count\": 007" = "\"count\": 7"
       ∧ pyRepair "[001, 2]" = "[1, 2]"
       ∧ pyRepair "\"flag\": \"true\", \"on\": \"FALSE\"" = "\"flag\": true, \"on\": false"
       ∧ generate_cactus cactusFailEnv weatherMsgs [weatherTool] retrySystemMsg =
           { function_calls := [], total_time_ms := 0, confidence := 0, cloud_handoff := false }) :=
  ⟨rfl, local_repair_and_degrade cactusFailEnv weatherMsgs [weatherTool] retrySystemMsg rfl⟩

/-! ### Helper lemmas for the string-grounding rule -/

/-- The empty needle is a substring of everything. -/
theorem listInfixOf_nil_left (l : List Char) : listInfixOf ([] : List Char) l = true := by
  cases l <;> simp [listInfixOf, listPrefixOf]

/-- Lower-casing keeps whitespace whitespace. -/
theorem toLower_isWhitespace (c : Char) (h : c.isWhitespace = true) :
    (Char.toLower c).isWhitespace = true := by
  have h4 : ((c = ' ' ∨ c = '\t') ∨ c = '\r') ∨ c = '\n' := by
    simpa [Char.isWhitespace, decide_eq_true_eq] using h
  rcases h4 with ((rfl | rfl) | rfl) | rfl <;> decide

/-- Trimming kills a list exactly when it is all whitespace. -/
theorem trimChars_eq_nil_iff (l : List Char) :
    trimChars l = [] ↔ ∀ c ∈ l, c.isWhitespace = true := by
  unfold trimChars
  constructor
  · intro h c hc
    rw [List.reverse_eq_nil_iff, List.dropWhile_eq_nil_iff] at h
    have hdrop : ∀ x ∈ l.dropWhile Char.isWhitespace, x.isWhitespace = true := by
      intro x hx
      exact h x (List.mem_reverse.mpr hx)
    rcases List.mem_append.mp
        (by rw [List.takeWhile_append_dropWhile]; exact hc :
          c ∈ l.takeWhile Char.isWhitespace ++ l.dropWhile Char.isWhitespace) with
      htake | hdr
    · exact List.mem_takeWhile_imp htake
    · exact hdrop c hdr
  · intro h
    have : l.dropWhile Char.isWhitespace = [] := List.dropWhile_eq_nil_iff.mpr h
    simp [this]

/-- `pyStrip s = ""` exactly when `s` is all whitespace. -/
theorem pyStrip_eq_empty_iff (s : String) :
    pyStrip s = "" ↔ ∀ c ∈ s.toList, c.isWhitespace = true := by
  rw [← trimChars_eq_nil_iff]
  unfold pyStrip
  constructor
  · intro h
    have := congrArg String.toList h
    simpa using this
  · intro h
    rw [h]

/-- If the raw value trims to nothing, its normalization is empty too. -/
theorem clean_empty_of_strip_empty (v : String) (h : pyStrip v = "") :
    pyStrip (stripPunct (lowerStr v)) = "" := by
  rw [pyStrip_eq_empty_iff] at h ⊢
  intro c hc
  have hc2 : c ∈ (lowerStr v).toList := by
    have heq : (stripPunct (lowerStr v)).toList
        = (lowerStr v).toList.filter (fun c => isWordChar c || c.isWhitespace) := rfl
    rw [heq] at hc
    exact List.mem_of_mem_filter hc
  have h3 : (lowerStr v).toList = v.toList.map Char.toLower := rfl
  rw [h3] at hc2
  obtain ⟨c0, hc0, rfl⟩ := List.mem_map.mp hc2
  exact toLower_isWhitespace c0 (h c0 hc0)

/-- C5: for a non-empty string argument of a declared string parameter,
with both value and user text normalized (lower-cased, punctuation
stripped, trimmed): an exact substring is accepted; with no substring
match and zero value words appearing in the text the call is rejected
with the hallucination reason; any partial word overlap is accepted. -/
theorem string_arg_grounding (toolName d p pd userText v : String) (hv : v ≠ "") :
    (strIn (pyStrip (stripPunct (lowerStr v))) (pyStrip (stripPunct (lowerStr userText))) = true →
      is_valid [⟨toolName, d, [(p, ⟨"string", pd⟩)], []⟩] (lowerStr userText)
        { function_calls := [⟨toolName, [(p, .str v)]⟩],
          total_time_ms := 0, confidence := 0, cloud_handoff := false } = (true, "ok"))
    ∧ (strIn (pyStrip (stripPunct (lowerStr v))) (pyStrip (stripPunct (lowerStr userText))) = false →
      (∀ w ∈ pySplit (pyStrip (stripPunct (lowerStr v))),
          strIn w (pyStrip (stripPunct (lowerStr userText))) = false) →
      is_valid [⟨toolName, d, [(p, ⟨"string", pd⟩)], []⟩] (lowerStr userText)
        { function_calls := [⟨toolName, [(p, .str v)]⟩],
          total_time_ms := 0, confidence := 0, cloud_handoff := false }
        = (false, "hallucinated string not in prompt: " ++ v))
    ∧ (strIn (pyStrip (stripPunct (lowerStr v))) (pyStrip (stripPunct (lowerStr userText))) = false →
      (∃ w ∈ pySplit (pyStrip (stripPunct (lowerStr v))),
          strIn w (pyStrip (stripPunct (lowerStr userText))) = true) →
      is_valid [⟨toolName, d, [(p, ⟨"string", pd⟩)], []⟩] (lowerStr userText)
        { function_calls := [⟨toolName, [(p, .str v)]⟩],
          total_time_ms := 0, confidence := 0, cloud_handoff := false } = (true, "ok")) := by
  have hcall : ∀ r : Option String,
      checkArgType (lowerStr userText) [] [(p, ⟨"string", pd⟩)] p (.str v) = r →
      is_valid [⟨toolName, d, [(p, ⟨"string", pd⟩)], []⟩] (lowerStr userText)
        { function_calls := [⟨toolName, [(p, .str v)]⟩],
          total_time_ms := 0, confidence := 0, cloud_handoff := false }
        = (match r with | some s => (false, s) | none => (true, "ok")) := by
    intro r hr
    simp only [is_valid, checkCalls, checkCall, toolsByName, checkArgs,
      List.reverse_singleton, List.find?, beq_self_eq_true, List.isEmpty_cons,
      Bool.false_eq_true, if_false, hr]
    cases r <;> rfl
  refine ⟨?_, ?_, ?_⟩
  · intro hin
    by_cases hvs : pyStrip v = ""
    · exact hcall none (by simp [checkArgType, dictFind, pyStr, hvs])
    · exact hcall none (by simp [checkArgType, dictFind, pyStr, hvs, hin])
  · intro hin hall
    have hcl : pyStrip (stripPunct (lowerStr v)) ≠ "" := by
      intro he
      rw [he] at hin
      simp [strIn, listInfixOf_nil_left] at hin
    have hps : pyStrip v ≠ "" := fun he => hcl (clean_empty_of_strip_empty v he)
    have hfilter : (pySplit (pyStrip (stripPunct (lowerStr v)))).filter
        (fun w => strIn w (pyStrip (stripPunct (lowerStr userText)))) = [] := by
      refine List.filter_eq_nil_iff.mpr ?_
      intro w hw
      simp [hall w hw]
    exact hcall (some ("hallucinated string not in prompt: " ++ v))
      (by simp [checkArgType, dictFind, pyStr, hps, hcl, hin, hfilter])
  · intro hin hover
    obtain ⟨w, hw, hws⟩ := hover
    have hcl : pyStrip (stripPunct (lowerStr v)) ≠ "" := by
      intro he
      rw [he] at hin
      simp [strIn, listInfixOf_nil_left] at hin
    have hps : pyStrip v ≠ "" := fun he => hcl (clean_empty_of_strip_empty v he)
    have hlen : ((pySplit (pyStrip (stripPunct (lowerStr v)))).filter
        (fun w => strIn w (pyStrip (stripPunct (lowerStr userText))))).length ≠ 0 := by
      have hmem : w ∈ (pySplit (pyStrip (stripPunct (lowerStr v)))).filter
          (fun w => strIn w (pyStrip (stripPunct (lowerStr userText)))) :=
        List.mem_filter.mpr ⟨hw, hws⟩
      exact Nat.pos_iff_ne_zero.mp (List.length_pos.mpr (List.ne_nil_of_mem hmem))
    exact hcall none (by simp [checkArgType, dictFind, pyStr, hps, hcl, hin, hlen])

/-- C5 witness: `"Bob"` is an exact (case-insensitive) substring of the
user text and is accepted. -/
theorem string_arg_grounding_witness :
    ("Bob" : String) ≠ ""
    ∧ strIn (pyStrip (stripPunct (lowerStr "Bob")))
        (pyStrip (stripPunct (lowerStr "Send hi to Bob now"))) = true
    ∧ is_valid [⟨"send_note", "send a note", [("contact", ⟨"string", "who"⟩)], []⟩]
        (lowerStr "Send hi to Bob now")
        { function_calls := [⟨"send_note", [("contact", .str "Bob")]⟩],
          total_time_ms := 0, confidence := 0, cloud_handoff := false } = (true, "ok") :=
  ⟨by decide, by decide,
   (string_arg_grounding "send_note" "send a note" "contact" "who" "Send hi to Bob now" "Bob"
      (by decide)).1 (by decide)⟩

/-- Shared reduction: on a single-call, single-argument result with a
matching tool name and no required parameters, `is_valid` reduces to the
argument type check. -/
theorem is_valid_single_arg (toolName d p msg : String) (ps : ParamSpec) (v : JVal)
    (r : Option String) (hr : checkArgType msg [] [(p, ps)] p v = r) :
    is_valid [⟨toolName, d, [(p, ps)], []⟩] msg
      { function_calls := [⟨toolName, [(p, v)]⟩],
        total_time_ms := 0, confidence := 0, cloud_handoff := false }
      = (match r with | some s => (false, s) | none => (true, "ok")) := by
  simp only [is_valid, checkCalls, checkCall, toolsByName, checkArgs,
    List.reverse_singleton, List.find?, beq_self_eq_true, List.isEmpty_cons,
    Bool.false_eq_true, if_false, hr]
  cases r <;> rfl

/-- C8: the validator rejects any result containing a call whose name is
not in the catalog, regardless of that call's arguments; rejects a call
missing a declared required parameter; the name rule is checked before
the required rule (a first call failing both reports the
hallucinated-name reason); and a valid result means every call passed
every per-call rule. -/
theorem validator_rules (tools : List ToolSpec) (msg : String) (result : LocalResult) :
    ((∃ c ∈ result.function_calls, toolsByName tools c.name = none) →
        (is_valid tools msg result).1 = false)
    ∧ ((∃ c ∈ result.function_calls, ∃ t, toolsByName tools c.name = some t ∧
          ∃ param ∈ t.required, dictContains c.arguments param = false) →
        (is_valid tools msg result).1 = false)
    ∧ (∀ c rest, result.function_calls = c :: rest → toolsByName tools c.name = none →
        is_valid tools msg result = (false, "hallucinated tool name: " ++ c.name))
    ∧ ((is_valid tools msg result).1 = true →
        ∀ c ∈ result.function_calls, checkCall tools msg c = none) := by
  have hbad : ∀ c : FunctionCall, toolsByName tools c.name = none →
      checkCall tools msg c = some ("hallucinated tool name: " ++ c.name) := by
    intro c hn
    simp [checkCall, hn]
  have hmiss : ∀ c : FunctionCall, ∀ t, toolsByName tools c.name = some t →
      (∃ param ∈ t.required, dictContains c.arguments param = false) →
      checkCall tools msg c ≠ none := by
    rintro c t ht ⟨param, hp, hdc⟩
    have hsome : (t.required.find? (fun param => !dictContains c.arguments param)).isSome := by
      rw [List.find?_isSome]
      exact ⟨param, hp, by simp [hdc]⟩
    obtain ⟨q, hq⟩ := Option.isSome_iff_exists.mp hsome
    simp [checkCall, ht, hq]
  refine ⟨?_, ?_, ?_, ?_⟩
  · rintro ⟨c, hc, hn⟩
    rw [Bool.eq_false_iff]
    intro hvt
    have hpass := ((is_valid_fst_true_iff tools msg result).mp hvt).2 c hc
    rw [hbad c hn] at hpass
    cases hpass
  · rintro ⟨c, hc, t, ht, hmissing⟩
    rw [Bool.eq_false_iff]
    intro hvt
    exact hmiss c t ht hmissing (((is_valid_fst_true_iff tools msg result).mp hvt).2 c hc)
  · intro c rest hc hn
    simp [is_valid, hc, checkCalls, hbad c hn]
  · intro hvt
    exact ((is_valid_fst_true_iff tools msg result).mp hvt).2

/-- C8 witness: a call under an unknown name is rejected with the
hallucinated-name reason even though it also misses a required
parameter; a known name missing its required parameter is rejected. -/
theorem validator_rules_witness :
    is_valid [weatherTool] "what is the weather"
      { function_calls := [⟨"bogus_tool", []⟩],
        total_time_ms := 0, confidence := 0, cloud_handoff := false }
      = (false, "hallucinated tool name: " ++ "bogus_tool")
    ∧ (is_valid [weatherTool] "what is the weather"
        { function_calls := [⟨"get_weather", []⟩],
          total_time_ms := 0, confidence := 0, cloud_handoff := false }).1 = false :=
  ⟨(validator_rules [weatherTool] "what is the weather"
      { function_calls := [⟨"bogus_tool", []⟩],
        total_time_ms := 0, confidence := 0, cloud_handoff := false }).2.2.1
      ⟨"bogus_tool", []⟩ [] rfl (by decide),
   (validator_rules [weatherTool] "what is the weather"
      { function_calls := [⟨"get_weather", []⟩],
        total_time_ms := 0, confidence := 0, cloud_handoff := false }).2.1
      ⟨⟨"get_weather", []⟩, by simp, weatherTool, by decide, "location", by decide, by decide⟩⟩

/-- C9: an integer-typed parameter accepts an int value or a string
coercible to an int, and rejects a non-coercible string with the
"not coercible to int" reason. -/
theorem integer_param_coercion (toolName d p pd msg : String) (v : JVal) :
    ((∃ n : Int, v = .int n) →
        is_valid [⟨toolName, d, [(p, ⟨"integer", pd⟩)], []⟩] msg
          { function_calls := [⟨toolName, [(p, v)]⟩],
            total_time_ms := 0, confidence := 0, cloud_handoff := false } = (true, "ok"))
    ∧ (∀ s : String, v = .str s → pyIntParse s ≠ none →
        is_valid [⟨toolName, d, [(p, ⟨"integer", pd⟩)], []⟩] msg
          { function_calls := [⟨toolName, [(p, v)]⟩],
            total_time_ms := 0, confidence := 0, cloud_handoff := false } = (true, "ok"))
    ∧ (∀ s : String, v = .str s → pyIntParse s = none →
        is_valid [⟨toolName, d, [(p, ⟨"integer", pd⟩)], []⟩] msg
          { function_calls := [⟨toolName, [(p, v)]⟩],
            total_time_ms := 0, confidence := 0, cloud_handoff := false }
          = (false, "param '" ++ p ++ "' not coercible to int")) := by
  refine ⟨?_, ?_, ?_⟩
  · rintro ⟨n, rfl⟩
    exact is_valid_single_arg toolName d p msg ⟨"integer", pd⟩ (.int n) none
      (by simp [checkArgType, dictFind, pyIsIntInstance])
  · rintro s rfl hne
    obtain ⟨k, hk⟩ := Option.ne_none_iff_exists'.mp hne
    exact is_valid_single_arg toolName d p msg ⟨"integer", pd⟩ (.str s) none
      (by simp [checkArgType, dictFind, pyIsIntInstance, pyStr, hk])
  · rintro s rfl hnone
    exact is_valid_single_arg toolName d p msg ⟨"integer", pd⟩ (.str s)
      (some ("param '" ++ p ++ "' not coercible to int"))
      (by simp [checkArgType, dictFind, pyIsIntInstance, pyStr, hnone])

/-- C9 witness: `"7"` is accepted, `"seven"` is rejected. -/
theorem integer_param_coercion_witness :
    pyIntParse "7" ≠ none ∧ pyIntParse "seven" = none
    ∧ is_valid [⟨"set_alarm", "set an alarm", [("hour", ⟨"integer", "h"⟩)], []⟩] "set an alarm"
        { function_calls := [⟨"set_alarm", [("hour", .str "7")]⟩],
          total_time_ms := 0, confidence := 0, cloud_handoff := false } = (true, "ok")
    ∧ is_valid [⟨"set_alarm", "set an alarm", [("hour", ⟨"integer", "h"⟩)], []⟩] "set an alarm"
        { function_calls := [⟨"set_alarm", [("hour", .str "seven")]⟩],
          total_time_ms := 0, confidence := 0, cloud_handoff := false }
        = (false, "param '" ++ "hour" ++ "' not coercible to int") :=
  ⟨by decide, by decide,
   (integer_param_coercion "set_alarm" "set an alarm" "hour" "h" "set an alarm"
      (.str "7")).2.1 "7" rfl (by decide),
   (integer_param_coercion "set_alarm" "set an alarm" "hour" "h" "set an alarm"
      (.str "seven")).2.2 "seven" rfl (by decide)⟩

/-- C10: a parameter declared with type "boolean" is never type-checked —
the dispatch chain handles only "integer", "number" and "string" — so
any supplied value passes validation for that parameter. -/
theorem boolean_param_unchecked (toolName d p pd msg : String) (v : JVal) :
    is_valid [⟨toolName, d, [(p, ⟨"boolean", pd⟩)], []⟩] msg
      { function_calls := [⟨toolName, [(p, v)]⟩],
        total_time_ms := 0, confidence := 0, cloud_handoff := false } = (true, "ok") := by
  have h : checkArgType msg [] [(p, ⟨"boolean", pd⟩)] p v = none := by
    simp [checkArgType, dictFind]
  simpa using is_valid_single_arg toolName d p msg ⟨"boolean", pd⟩ v none h
